import Mathlib

/-!
Shallow embedding of the async I/O adaptation layer of true-async/php-src:
the poll/select adapters, the DNS adapters and the cURL transfer-engine
bridge (`src/main/network_async.c`, `src/unnamed/part_002`,
`src/ext/curl/curl_async.c`).  The source tree carries two revisions of the
poll adapter and of the cURL bridge; where a claim cites both, both are
embedded, suffixed `V1` (the older revision, first in the file) and `V2`
(the newer revision, after the document separator).
-/

set_option autoImplicit false

/-- Legacy poll(2) event bit set: POLLIN, POLLOUT, POLLHUP, POLLPRI,
POLLERR, POLLNVAL, each modelled as one boolean flag of the `events`
or `revents` short. -/
structure PollBits where
  pollin : Bool
  pollout : Bool
  pollhup : Bool
  pollpri : Bool
  pollerr : Bool
  pollnval : Bool
  deriving DecidableEq, Repr

/-- Reactor event bit set: ASYNC_READABLE, ASYNC_WRITABLE,
ASYNC_DISCONNECT, ASYNC_PRIORITIZED. -/
structure AsyncBits where
  readable : Bool
  writable : Bool
  disconnect : Bool
  prioritized : Bool
  deriving DecidableEq, Repr

/-- The empty reactor event set (zend_ulong value 0). -/
def AsyncBits.none : AsyncBits := ⟨false, false, false, false⟩

/-- The empty poll event set (short value 0). -/
def PollBits.none : PollBits := ⟨false, false, false, false, false, false⟩

/-- Embedding of `poll2_events_to_async` (network_async.c / part_002):
each POLL bit ORs its reactor counterpart into the result; POLLERR and
POLLNVAL both OR in ASYNC_READABLE. -/
def poll2_events_to_async (events : PollBits) : AsyncBits :=
  let r := AsyncBits.none
  let r := if events.pollin then { r with readable := true } else r
  let r := if events.pollout then { r with writable := true } else r
  let r := if events.pollhup then { r with disconnect := true } else r
  let r := if events.pollpri then { r with prioritized := true } else r
  let r := if events.pollerr then { r with readable := true } else r
  let r := if events.pollnval then { r with readable := true } else r
  r

/-- Embedding of `async_events_to_poll2` (network_async.c / part_002):
READABLE, WRITABLE, DISCONNECT and PRIORITIZED map back to POLLIN,
POLLOUT, POLLHUP and POLLPRI; no reverse mapping produces POLLERR or
POLLNVAL. -/
def async_events_to_poll2 (events : AsyncBits) : PollBits :=
  let r := PollBits.none
  let r := if events.readable then { r with pollin := true } else r
  let r := if events.writable then { r with pollout := true } else r
  let r := if events.disconnect then { r with pollhup := true } else r
  let r := if events.prioritized then { r with pollpri := true } else r
  r

/-- Kinds of pending reactor failure objects distinguished by the layer:
a cancellation exception, a timeout exception, or any other exception
class. -/
inductive ExcKind where
  | cancellation
  | timeout
  | other
  deriving DecidableEq, Repr

/-- Legacy errno codes written by the adapters. -/
inductive Errno where
  | EINVAL
  | ENOMEM
  | EINTR
  | ECANCELED
  | ETIMEDOUT
  deriving DecidableEq, Repr

/-- Observable effect of the exception-to-errno mapper: the sequence of
errno assignments it performs, the number of E_WARNING diagnostics it
emits, and the pending-exception state it leaves behind. -/
structure MapperOut where
  errnoWrites : List Errno
  warnings : Nat
  pending : Option ExcKind
  deriving DecidableEq, Repr

/-- Embedding of `handle_exception_and_errno` (part_002 lines 175-198):
if an exception is pending it is taken over (addref + clear), then errno
is assigned ECANCELED for the cancellation class, ETIMEDOUT for the
timeout class, and otherwise EINTR with the exception surfaced as an
E_WARNING; with no pending exception errno is assigned EINTR. -/
def handle_exception_and_errno (pending : Option ExcKind) : MapperOut :=
  match pending with
  | some error =>
    if error = ExcKind.cancellation then
      { errnoWrites := [Errno.ECANCELED], warnings := 0, pending := Option.none }
    else if error = ExcKind.timeout then
      { errnoWrites := [Errno.ETIMEDOUT], warnings := 0, pending := Option.none }
    else
      { errnoWrites := [Errno.EINTR], warnings := 1, pending := Option.none }
  | Option.none =>
    { errnoWrites := [Errno.EINTR], warnings := 0, pending := Option.none }

/-- One entry of the caller's pollfd array: the descriptor, the requested
event bits and the output revents bits. -/
structure PollFd where
  fd : Nat
  events : PollBits
  revents : PollBits
  deriving DecidableEq, Repr

/-- What ends the suspension of an adapter call: either the coroutine is
resumed after its event callbacks ran (the list records, in firing order,
which registered entry fired with which `triggered_events` bits), or it is
resumed with a pending failure (cancellation, waker timeout, or other). -/
inductive SuspendOutcome where
  | resumed (fired : List (Nat × AsyncBits))
  | failed (e : ExcKind)

/-- Environment of one adapter call: whether a current coroutine exists,
which reactor constructor calls fail (by the index of the entry or fd
being registered), and how the suspension ends. -/
structure AdapterEnv where
  inCoroutine : Bool
  wakerNewFails : Bool
  eventCtorFails : Nat → Bool
  resumeWhenFails : Nat → Bool
  outcome : SuspendOutcome

/-- How the registration loop of an adapter exits: all events registered,
an event constructor threw (the ENOMEM exit), or zend_async_resume_when
threw (the generic error exit). -/
inductive SetupExit where
  | ok
  | enomem
  | errorExit
  deriving DecidableEq, Repr

/-- Scan of the registration loop: for each index in order, first a
possible event-constructor failure (ENOMEM exit), then a possible
resume_when failure (error exit); the first failure wins. -/
def setupScan (ctorFails resumeFails : Nat → Bool) : List Nat → SetupExit
  | [] => SetupExit.ok
  | i :: rest =>
    if ctorFails i then SetupExit.enomem
    else if resumeFails i then SetupExit.errorExit
    else setupScan ctorFails resumeFails rest

/-- Replay of the firing poll callbacks over the pollfd array
(`poll_callback_resolve`): each firing callback overwrites the revents of
its entry with the reactor-to-poll translation of the triggered bits. -/
def applyPollFired (ufds : List PollFd) (fired : List (Nat × AsyncBits)) : List PollFd :=
  fired.foldl
    (fun l p =>
      match l.get? p.1 with
      | Option.none => l
      | some e => l.set p.1 { e with revents := async_events_to_poll2 p.2 })
    ufds

/-- Accumulator value after the firing poll callbacks: each firing
callback whose freshly written revents is non-zero increments the counter
once (the counter was initialised to 0 before suspension). -/
def pollAccumulator (fired : List (Nat × AsyncBits)) : Nat :=
  fired.countP (fun p => async_events_to_poll2 p.2 ≠ PollBits.none)

/-- Result of one `php_poll2_async` call: the return value, the errno
assignments in order, the warnings emitted, the final pollfd array,
whether the coroutine's waker is still alive at return, and the timeout
value the waker was created with (when one was created). -/
structure PollRes where
  result : Int
  errnoWrites : List Errno
  warnings : Nat
  ufds : List PollFd
  wakerAlive : Bool
  wakerTimeoutMs : Option Nat
  pending : Option ExcKind

/-- Modelled from the spec: the waker timeout argument encodes "no
timeout" as 0 (the source comment reads: Convert Infinite timeout (-1) to
0 for the async waker), so a reactor timer is armed for the suspension
only when the waker was created with a positive millisecond value. -/
def wakerTimerArmed (ms : Nat) : Bool := decide (0 < ms)

/-- Embedding of `php_poll2_async` (part_002 lines 233-314): EINVAL
outside a coroutine; a negative timeout is converted to 0 before the
waker is created; one socket event and callback per entry (ENOMEM exit on
constructor failure, error exit on resume_when failure); then suspension;
on failure the mapper runs and the waker is destroyed; on resumption the
callbacks have filled revents and the accumulator, and the waker is
destroyed. -/
def php_poll2_async (env : AdapterEnv) (ufds : List PollFd) (timeout : Int) : PollRes :=
  if env.inCoroutine = false then
    { result := -1, errnoWrites := [Errno.EINVAL], warnings := 0, ufds := ufds,
      wakerAlive := false, wakerTimeoutMs := Option.none, pending := Option.none }
  else
    let t : Nat := (if timeout < 0 then 0 else timeout).toNat
    if env.wakerNewFails then
      let m := handle_exception_and_errno (some ExcKind.other)
      { result := -1, errnoWrites := m.errnoWrites, warnings := m.warnings, ufds := ufds,
        wakerAlive := false, wakerTimeoutMs := Option.none, pending := m.pending }
    else
      match setupScan env.eventCtorFails env.resumeWhenFails (List.range ufds.length) with
      | SetupExit.enomem =>
        { result := -1, errnoWrites := [Errno.ENOMEM], warnings := 0, ufds := ufds,
          wakerAlive := false, wakerTimeoutMs := some t, pending := some ExcKind.other }
      | SetupExit.errorExit =>
        let m := handle_exception_and_errno (some ExcKind.other)
        { result := -1, errnoWrites := m.errnoWrites, warnings := m.warnings, ufds := ufds,
          wakerAlive := false, wakerTimeoutMs := some t, pending := m.pending }
      | SetupExit.ok =>
        match env.outcome with
        | SuspendOutcome.failed e =>
          let m := handle_exception_and_errno (some e)
          { result := -1, errnoWrites := m.errnoWrites, warnings := m.warnings, ufds := ufds,
            wakerAlive := false, wakerTimeoutMs := some t, pending := m.pending }
        | SuspendOutcome.resumed fired =>
          { result := Int.ofNat (pollAccumulator fired),
            errnoWrites := [], warnings := 0,
            ufds := applyPollFired ufds fired,
            wakerAlive := false, wakerTimeoutMs := some t, pending := Option.none }

/-- SAFE_FD_ISSET of the select adapter: membership of fd in an optional
fd_set, false for a NULL set pointer. -/
def safeFdIsSet (s : Option (Finset Nat)) (fd : Nat) : Bool :=
  match s with
  | Option.none => false
  | some s => decide (fd ∈ s)

/-- Requested reactor bits the select adapter computes for one fd from the
three input sets: rfds membership requests READABLE, wfds membership
WRITABLE, efds membership PRIORITIZED. -/
def selectRequested (rfds wfds efds : Option (Finset Nat)) (fd : Nat) : AsyncBits :=
  { readable := safeFdIsSet rfds fd,
    writable := safeFdIsSet wfds fd,
    disconnect := false,
    prioritized := safeFdIsSet efds fd }

/-- The fds in [0, max_fd) for which the select adapter registers a
readiness event: those with at least one requested bit. -/
def selectRegisteredFds (maxFd : Nat) (rfds wfds efds : Option (Finset Nat)) : List Nat :=
  (List.range maxFd).filter (fun i => selectRequested rfds wfds efds i ≠ AsyncBits.none)

/-- Scratch fd_set filled by the firing select callbacks
(`select_callback_resolve`): the fds whose triggered bits satisfy the
given predicate (each such callback runs under its non-zero
triggered_events guard). -/
def selectScratch (fired : List (Nat × AsyncBits)) (pick : AsyncBits → Bool) : Finset Nat :=
  ((fired.filter (fun p => pick p.2)).map Prod.fst).toFinset

/-- Accumulator value after the firing select callbacks: one increment per
firing callback with non-zero triggered_events. -/
def selectAccumulator (fired : List (Nat × AsyncBits)) : Nat :=
  fired.countP (fun p => p.2 ≠ AsyncBits.none)

/-- Result of one `php_select_async` call: the return value, the final
caller-visible fd sets (NULL pointers stay NULL), the errno assignments,
warnings, and whether the coroutine's waker is still alive at return. -/
structure SelectRes where
  result : Int
  rfds : Option (Finset Nat)
  wfds : Option (Finset Nat)
  efds : Option (Finset Nat)
  errnoWrites : List Errno
  warnings : Nat
  wakerAlive : Bool
  pending : Option ExcKind

/-- INT_MAX bound checked by the select adapter on max_fd. -/
def INT_MAX : Nat := 2147483647

/-- Embedding of `php_select_async` (part_002 lines 421-540): EINVAL
outside a coroutine; a bare -1 when max_fd exceeds INT_MAX; timeout
computed from the optional timeval (0, meaning no timeout, when absent);
three empty scratch sets; one event per fd with requested bits (ENOMEM or
error exit on registration failure); suspension; on failure the mapper
runs; on resumption the accumulator is read and the scratch sets are
copied back over exactly the caller-supplied sets; the waker is destroyed
on every path that created it. -/
def php_select_async (env : AdapterEnv) (maxFd : Nat)
    (rfds wfds efds : Option (Finset Nat)) (tv : Option Nat) : SelectRes :=
  if env.inCoroutine = false then
    { result := -1, rfds := rfds, wfds := wfds, efds := efds,
      errnoWrites := [Errno.EINVAL], warnings := 0, wakerAlive := false,
      pending := Option.none }
  else if INT_MAX < maxFd then
    { result := -1, rfds := rfds, wfds := wfds, efds := efds,
      errnoWrites := [], warnings := 0, wakerAlive := false, pending := Option.none }
  else
    let _timeout : Nat := tv.getD 0
    if env.wakerNewFails then
      let m := handle_exception_and_errno (some ExcKind.other)
      { result := -1, rfds := rfds, wfds := wfds, efds := efds,
        errnoWrites := m.errnoWrites, warnings := m.warnings, wakerAlive := false,
        pending := m.pending }
    else
      match setupScan env.eventCtorFails env.resumeWhenFails
          (selectRegisteredFds maxFd rfds wfds efds) with
      | SetupExit.enomem =>
        { result := -1, rfds := rfds, wfds := wfds, efds := efds,
          errnoWrites := [Errno.ENOMEM], warnings := 0, wakerAlive := false,
          pending := some ExcKind.other }
      | SetupExit.errorExit =>
        let m := handle_exception_and_errno (some ExcKind.other)
        { result := -1, rfds := rfds, wfds := wfds, efds := efds,
          errnoWrites := m.errnoWrites, warnings := m.warnings, wakerAlive := false,
          pending := m.pending }
      | SetupExit.ok =>
        match env.outcome with
        | SuspendOutcome.failed e =>
          let m := handle_exception_and_errno (some e)
          { result := -1, rfds := rfds, wfds := wfds, efds := efds,
            errnoWrites := m.errnoWrites, warnings := m.warnings, wakerAlive := false,
            pending := m.pending }
        | SuspendOutcome.resumed fired =>
          { result := Int.ofNat (selectAccumulator fired),
            rfds := rfds.map (fun _ => selectScratch fired (fun b => b.readable)),
            wfds := wfds.map (fun _ => selectScratch fired (fun b => b.writable)),
            efds := efds.map (fun _ => selectScratch fired (fun b => b.disconnect || b.prioritized)),
            errnoWrites := [], warnings := 0, wakerAlive := false,
            pending := Option.none }

/-- Environment of one DNS adapter call: coroutine context, constructor
failures, how the suspension ends, and whether the DNS callback set the
waker result to TRUE (a successful resolution). -/
structure DnsEnv where
  inCoroutine : Bool
  wakerNewFails : Bool
  dnsEventFails : Bool
  resumeWhenFails : Bool
  suspendExc : Option ExcKind
  resolveSuccess : Bool

/-- Result of one `php_network_getaddrinfo_async` call. -/
structure DnsRes where
  ret : Int
  errnoWrites : List Errno
  warnings : Nat
  wakerAlive : Bool

/-- Embedding of `php_network_getaddrinfo_async` (part_002 lines 611-666):
EINVAL outside a coroutine or with both node and service NULL; waker, DNS
addrinfo event and callback created (ENOMEM written before the error exit
on event failure); suspension; return 0 when the waker result is TRUE,
otherwise the error exit runs the mapper; the waker is destroyed on every
path that created it. -/
def php_network_getaddrinfo_async (env : DnsEnv) (nodeNull serviceNull : Bool) : DnsRes :=
  if env.inCoroutine = false then
    { ret := -1, errnoWrites := [Errno.EINVAL], warnings := 0, wakerAlive := false }
  else if nodeNull ∧ serviceNull then
    { ret := -1, errnoWrites := [Errno.EINVAL], warnings := 0, wakerAlive := false }
  else if env.wakerNewFails then
    let m := handle_exception_and_errno (some ExcKind.other)
    { ret := -1, errnoWrites := m.errnoWrites, warnings := m.warnings, wakerAlive := false }
  else if env.dnsEventFails then
    let m := handle_exception_and_errno (some ExcKind.other)
    { ret := -1, errnoWrites := Errno.ENOMEM :: m.errnoWrites, warnings := m.warnings,
      wakerAlive := false }
  else if env.resumeWhenFails then
    let m := handle_exception_and_errno (some ExcKind.other)
    { ret := -1, errnoWrites := m.errnoWrites, warnings := m.warnings, wakerAlive := false }
  else
    match env.suspendExc with
    | some e =>
      let m := handle_exception_and_errno (some e)
      { ret := -1, errnoWrites := m.errnoWrites, warnings := m.warnings, wakerAlive := false }
    | Option.none =>
      if env.resolveSuccess then
        { ret := 0, errnoWrites := [], warnings := 0, wakerAlive := false }
      else
        let m := handle_exception_and_errno Option.none
        { ret := -1, errnoWrites := m.errnoWrites, warnings := m.warnings, wakerAlive := false }

/-- Result of one `php_network_gethostbyaddr_async` call: whether a
hostname string was returned, and the waker state at return. -/
structure HostByAddrRes where
  returnedHostname : Bool
  wakerAlive : Bool

/-- Embedding of `php_network_gethostbyaddr_async` (part_002 lines
791-858): NULL outside a coroutine, for a NULL ip or one inet_pton
rejects; waker, nameinfo event and callback created; suspension; on a
TRUE waker result the refcounted hostname is returned, otherwise the
failure is swallowed and NULL returned; the waker is destroyed on every
path that created it. -/
def php_network_gethostbyaddr_async (env : DnsEnv) (ipNull ipValid : Bool) : HostByAddrRes :=
  if env.inCoroutine = false ∨ ipNull then
    { returnedHostname := false, wakerAlive := false }
  else if ipValid = false then
    { returnedHostname := false, wakerAlive := false }
  else if env.wakerNewFails then
    { returnedHostname := false, wakerAlive := false }
  else if env.dnsEventFails then
    { returnedHostname := false, wakerAlive := false }
  else if env.resumeWhenFails then
    { returnedHostname := false, wakerAlive := false }
  else
    match env.suspendExc with
    | some _ => { returnedHostname := false, wakerAlive := false }
    | Option.none =>
      if env.resolveSuccess then
        { returnedHostname := true, wakerAlive := false }
      else
        { returnedHostname := false, wakerAlive := false }

/-- Per-coroutine state touched by `php_network_gethostbyname_async`: the
internal-context slot keyed by hostent_key (the allocation id of the live
buffer, if any), the number of coroutine-end cleanup callbacks registered,
and the allocation ids freed so far, in order. -/
structure CoroCtx where
  hostent : Option Nat
  callbacks : Nat
  freed : List Nat
  deriving DecidableEq, Repr

/-- The empty per-coroutine state: no buffer, no cleanup callback. -/
def CoroCtx.init : CoroCtx := { hostent := Option.none, callbacks := 0, freed := [] }

/-- Embedding of the context manipulation of
`php_network_gethostbyname_async` (part_002 lines 739-781) on a
successful resolution producing a fresh buffer: if the context already
holds a buffer it is unset and freed and no new cleanup callback is
needed; the fresh buffer is stored; a cleanup callback is registered only
when none existed. -/
def gethostbyname_install (st : CoroCtx) (fresh : Nat) : CoroCtx :=
  match st.hostent with
  | some old =>
    { hostent := some fresh, callbacks := st.callbacks, freed := st.freed ++ [old] }
  | Option.none =>
    { hostent := some fresh, callbacks := st.callbacks + 1, freed := st.freed }

/-- Embedding of `hostent_free_callback` (part_002 lines 690-699): find
the context slot; if it holds a buffer, free it and unset the slot;
otherwise do nothing. -/
def hostent_free_callback (st : CoroCtx) : CoroCtx :=
  match st.hostent with
  | some p => { hostent := Option.none, callbacks := st.callbacks, freed := st.freed ++ [p] }
  | Option.none => st

/-- Run the registered coroutine-end callbacks n times (each registered
cleanup callback invokes hostent_free_callback once). -/
def runEndCallbacks : Nat → CoroCtx → CoroCtx
  | 0, st => st
  | n + 1, st => runEndCallbacks n (hostent_free_callback st)

/-- Coroutine termination: every registered cleanup callback runs once. -/
def coroutineEnd (st : CoroCtx) : CoroCtx := runEndCallbacks st.callbacks st

/-- A sequence of successful `php_network_gethostbyname_async` calls on
the same coroutine, the k-th call allocating the k-th listed buffer id. -/
def gethostbynameCalls (ids : List Nat) : CoroCtx :=
  ids.foldl gethostbyname_install CoroCtx.init

/-- Environment of one `php_network_getaddresses_async` call: whether the
inner getaddrinfo call fails, and the resolved address chain (ids of the
sockaddr records) when it succeeds. -/
structure GetAddrsEnv where
  lookupFails : Bool
  addrs : List Nat

/-- Result of one `php_network_getaddresses_async` call: the return value,
what was written through the output sockaddr-array pointer (NONE when the
pointer was never written), the final contents of the caller's
error-string slot (when the caller passed one), the number of E_WARNING
diagnostics, and whether a resolution was attempted. -/
structure GetAddrsRes where
  ret : Int
  salOut : Option (List Nat)
  errStr : Option (Option String)
  warnings : Nat
  resolverCalled : Bool
  deriving DecidableEq, Repr

/-- Embedding of `php_network_getaddresses_async` (part_002 lines
866-929): a NULL host returns 0 at once; otherwise getaddrinfo_async runs
with family UNSPEC; on failure or an empty chain the error-string slot is
replaced (releasing any previous string) or a warning emitted, and -1
returned; on success a NULL-terminated array of copied sockaddr records
is written and the count returned. -/
def php_network_getaddresses_async (env : GetAddrsEnv) (host : Option String)
    (errStrIn : Option (Option String)) : GetAddrsRes :=
  match host with
  | Option.none =>
    { ret := 0, salOut := Option.none, errStr := errStrIn, warnings := 0,
      resolverCalled := false }
  | some h =>
    if env.lookupFails then
      match errStrIn with
      | some _ =>
        { ret := -1, salOut := Option.none,
          errStr := some (some ("getaddrinfo for " ++ h ++ " failed")),
          warnings := 0, resolverCalled := true }
      | Option.none =>
        { ret := -1, salOut := Option.none, errStr := Option.none,
          warnings := 1, resolverCalled := true }
    else if env.addrs.isEmpty then
      match errStrIn with
      | some _ =>
        { ret := -1, salOut := Option.none,
          errStr := some (some ("no addresses found for " ++ h)),
          warnings := 0, resolverCalled := true }
      | Option.none =>
        { ret := -1, salOut := Option.none, errStr := Option.none,
          warnings := 1, resolverCalled := true }
    else
      { ret := Int.ofNat env.addrs.length, salOut := some env.addrs,
        errStr := errStrIn, warnings := 0, resolverCalled := true }

/-- A curl_async_event_t wrapper registered in the thread-local
curl_multi_event_list: its identity and its closed flag. -/
structure CurlEventRec where
  id : Nat
  closed : Bool
  deriving DecidableEq, Repr

/-- Thread-local state the completed-handle drain operates on: the set of
easy handles currently added to the multi handle, the event list keyed by
easy handle, the integer results emitted and notified so far (event id
paired with the engine status code), the ids of events stopped so far, and
whether a notification was ever attempted through a NULL event pointer. -/
structure CurlMultiState where
  multiHandles : Finset Nat
  eventList : List (Nat × CurlEventRec)
  notified : List (Nat × Int)
  stoppedIds : List Nat
  nullNotify : Bool
  deriving DecidableEq

/-- Lookup of the curl_event for an easy handle in the thread-local event
list (zend_hash_index_find_ptr on curl_multi_event_list). -/
def curlEventLookup (h : Nat) (l : List (Nat × CurlEventRec)) : Option CurlEventRec :=
  (l.find? (fun p => p.1 = h)).map Prod.snd

/-- Embedding of `curl_async_event_stop` (curl_async.c): a closed event is
left alone; otherwise the event is marked closed, deleted from the event
list, and its easy handle removed from the multi handle. -/
def curl_async_event_stop (st : CurlMultiState) (h : Nat) (ev : CurlEventRec) : CurlMultiState :=
  if ev.closed then st
  else
    { st with
      eventList := st.eventList.filter (fun p => p.1 ≠ h),
      multiHandles := st.multiHandles.erase h,
      stoppedIds := st.stoppedIds ++ [ev.id] }

/-- One message of the transfer engine's completed-message queue. -/
structure CurlMsg where
  isDone : Bool
  easy : Nat
  code : Int
  deriving DecidableEq, Repr

/-- Embedding of one iteration of `process_curl_completed_handles`, newer
revision (curl_async.c lines 874-897): a DONE message removes the easy
handle from the multi, looks up its curl_event, and when one is found
emits the integer status as a ZVAL result, notifies the event's callbacks
and stops the event; with no matching event the message is skipped. -/
def processDoneMsgV2 (st : CurlMultiState) (msg : CurlMsg) : CurlMultiState :=
  if msg.isDone then
    let st1 := { st with multiHandles := st.multiHandles.erase msg.easy }
    match curlEventLookup msg.easy st1.eventList with
    | Option.none => st1
    | some ev =>
      let st2 := { st1 with notified := st1.notified ++ [(ev.id, msg.code)] }
      curl_async_event_stop st2 msg.easy ev
  else st

/-- Embedding of one iteration of `process_curl_completed_handles`, older
revision (curl_async.c lines 164-187): a DONE message removes the easy
handle from the multi, but the guard is inverted: when the lookup finds
the curl_event the loop continues (no notification), and when the lookup
returns NULL the notification and stop run through the NULL pointer. -/
def processDoneMsgV1 (st : CurlMultiState) (msg : CurlMsg) : CurlMultiState :=
  if msg.isDone then
    let st1 := { st with multiHandles := st.multiHandles.erase msg.easy }
    match curlEventLookup msg.easy st1.eventList with
    | some _ => st1
    | Option.none => { st1 with nullNotify := true }
  else st

/-- Drain of the whole completed-message queue, newer revision. -/
def process_curl_completed_handles_v2 (queue : List CurlMsg) (st : CurlMultiState) :
    CurlMultiState :=
  queue.foldl processDoneMsgV2 st

/-- Drain of the whole completed-message queue, older revision. -/
def process_curl_completed_handles_v1 (queue : List CurlMsg) (st : CurlMultiState) :
    CurlMultiState :=
  queue.foldl processDoneMsgV1 st

/-- Modelled from the spec: one drain iteration as the spec words it --
for every DONE message, remove the easy handle from the multi, look up its
curl_event, and exactly when a matching event is found emit the engine's
status code on it, notify its callbacks and stop the event; a DONE message
with no matching event is skipped without notification. -/
def drainDoneSpec (st : CurlMultiState) (msg : CurlMsg) : CurlMultiState :=
  if msg.isDone then
    let removed := { st with multiHandles := st.multiHandles.erase msg.easy }
    match curlEventLookup msg.easy removed.eventList with
    | some ev =>
      { removed with
        notified := removed.notified ++ [(ev.id, msg.code)],
        eventList := if ev.closed then removed.eventList
                     else removed.eventList.filter (fun p => p.1 ≠ msg.easy),
        stoppedIds := if ev.closed then removed.stoppedIds
                      else removed.stoppedIds ++ [ev.id] }
    | Option.none => removed
  else st

/-- CURLcode and CURLMcode values used by the bridge. -/
def CURLE_OK : Int := 0
/-- CURLE_FAILED_INIT status code. -/
def CURLE_FAILED_INIT : Int := 2
/-- CURLE_ABORTED_BY_CALLBACK status code. -/
def CURLE_ABORTED_BY_CALLBACK : Int := 42
/-- CURLM_OK status code. -/
def CURLM_OK : Int := 0
/-- CURLM_OUT_OF_MEMORY status code. -/
def CURLM_OUT_OF_MEMORY : Int := 3
/-- CURLM_INTERNAL_ERROR status code. -/
def CURLM_INTERNAL_ERROR : Int := 4

/-- Environment of one `curl_async_perform` call. -/
structure PerformEnv where
  inCoroutine : Bool
  wakerNewFails : Bool
  eventCtorFails : Bool
  resumeWhenFails : Bool
  suspendExc : Option ExcKind
  wakerResultLong : Option Int

/-- Result of one `curl_async_perform` call: the CURLcode and whether the
coroutine's waker is still alive at return. -/
structure PerformRes where
  code : Int
  wakerAlive : Bool
  deriving DecidableEq, Repr

/-- Embedding of `curl_async_perform`, older revision (curl_async.c lines
299-346): FAILED_INIT outside a coroutine or on waker or event
construction failure (the latter destroys the waker); resume_when is not
checked; after suspension a pending exception returns ABORTED_BY_CALLBACK
and a clean resumption returns the waker's integer result -- in both of
these the waker is left alive. -/
def curl_async_perform_v1 (env : PerformEnv) : PerformRes :=
  if env.inCoroutine = false then
    { code := CURLE_FAILED_INIT, wakerAlive := false }
  else if env.wakerNewFails then
    { code := CURLE_FAILED_INIT, wakerAlive := false }
  else if env.eventCtorFails then
    { code := CURLE_FAILED_INIT, wakerAlive := false }
  else if env.resumeWhenFails then
    { code := CURLE_ABORTED_BY_CALLBACK, wakerAlive := true }
  else
    match env.suspendExc with
    | some _ => { code := CURLE_ABORTED_BY_CALLBACK, wakerAlive := true }
    | Option.none =>
      { code := env.wakerResultLong.getD CURLE_OK, wakerAlive := true }

/-- Embedding of `curl_async_perform`, newer revision (curl_async.c lines
1180-1234): the same flow, but resume_when failure is checked and every
path after waker creation destroys the waker before returning. -/
def curl_async_perform_v2 (env : PerformEnv) : PerformRes :=
  if env.inCoroutine = false then
    { code := CURLE_FAILED_INIT, wakerAlive := false }
  else if env.wakerNewFails then
    { code := CURLE_FAILED_INIT, wakerAlive := false }
  else if env.eventCtorFails then
    { code := CURLE_FAILED_INIT, wakerAlive := false }
  else if env.resumeWhenFails then
    { code := CURLE_FAILED_INIT, wakerAlive := false }
  else
    match env.suspendExc with
    | some _ => { code := CURLE_ABORTED_BY_CALLBACK, wakerAlive := false }
    | Option.none =>
      { code := env.wakerResultLong.getD CURLE_OK, wakerAlive := false }

/-- Environment of one `curl_async_select` call. -/
structure CurlSelectEnv where
  hasEvent : Bool
  initFails : Bool
  inCoroutine : Bool
  wakerNewFails : Bool
  resumeWhenFails : Bool
  timerCtorFails : Bool
  suspendExc : Option ExcKind
  pollListSize : Nat

/-- Result of one `curl_async_select` call: the CURLMcode, the value
written through numfds (NONE when the pointer was never written), and the
failure still pending when the call returns. -/
structure CurlSelectRes where
  code : Int
  numfds : Option Nat
  pendingAfter : Option ExcKind
  deriving DecidableEq, Repr

/-- Embedding of `curl_async_select`, older revision (curl_async.c lines
720-793): OUT_OF_MEMORY when the lazy context cannot be created; result
starts at CURLM_OK; a positive timeout allocates a timer (INTERNAL_ERROR
on its failure, reaching finally); after suspension a timeout exception is
cleared and result stays CURLM_OK, but any other pending failure leaves
result CURLM_OK as well; finally always writes numfds from the poll
list. -/
def curl_async_select_v1 (env : CurlSelectEnv) (timeoutMs : Int) : CurlSelectRes :=
  if env.hasEvent = false ∧ env.initFails then
    { code := CURLM_OUT_OF_MEMORY, numfds := Option.none, pendingAfter := Option.none }
  else if 0 < timeoutMs ∧ env.timerCtorFails then
    { code := CURLM_INTERNAL_ERROR, numfds := some env.pollListSize,
      pendingAfter := Option.none }
  else if 0 < timeoutMs ∧ env.resumeWhenFails then
    { code := CURLM_INTERNAL_ERROR, numfds := some env.pollListSize,
      pendingAfter := some ExcKind.other }
  else
    match env.suspendExc with
    | some e =>
      if e = ExcKind.timeout then
        { code := CURLM_OK, numfds := some env.pollListSize, pendingAfter := Option.none }
      else
        { code := CURLM_OK, numfds := some env.pollListSize, pendingAfter := some e }
    | Option.none =>
      { code := CURLM_OK, numfds := some env.pollListSize, pendingAfter := Option.none }

/-- Embedding of `curl_async_select`, newer revision (curl_async.c lines
1574-1633): INTERNAL_ERROR when the lazy event cannot be initialised or
outside a coroutine (numfds untouched); result starts at INTERNAL_ERROR; a
waker with the given timeout is created and the multi event linked to it
(failures reach finally with INTERNAL_ERROR); after suspension a timeout
failure is cleared and the call returns CURLM_OK, any other pending
failure returns INTERNAL_ERROR; finally writes numfds from the poll
list. -/
def curl_async_select_v2 (env : CurlSelectEnv) (_timeoutMs : Int) : CurlSelectRes :=
  if env.hasEvent = false ∧ env.initFails then
    { code := CURLM_INTERNAL_ERROR, numfds := Option.none, pendingAfter := Option.none }
  else if env.inCoroutine = false then
    { code := CURLM_INTERNAL_ERROR, numfds := Option.none, pendingAfter := Option.none }
  else if env.wakerNewFails then
    { code := CURLM_INTERNAL_ERROR, numfds := some env.pollListSize,
      pendingAfter := some ExcKind.other }
  else if env.resumeWhenFails then
    { code := CURLM_INTERNAL_ERROR, numfds := some env.pollListSize,
      pendingAfter := some ExcKind.other }
  else
    match env.suspendExc with
    | some e =>
      if e = ExcKind.timeout then
        { code := CURLM_OK, numfds := some env.pollListSize, pendingAfter := Option.none }
      else
        { code := CURLM_INTERNAL_ERROR, numfds := some env.pollListSize,
          pendingAfter := some e }
    | Option.none =>
      { code := CURLM_OK, numfds := some env.pollListSize, pendingAfter := Option.none }

/-- A `php_select_async` run in which the coroutine exists, every
registration succeeds and the suspension ends by resumption with the given
list of firing callbacks. -/
def selectResumedRes (fired : List (Nat × AsyncBits)) (maxFd : Nat)
    (rfds wfds efds : Option (Finset Nat)) (tv : Option Nat) : SelectRes :=
  php_select_async
    { inCoroutine := true, wakerNewFails := false,
      eventCtorFails := fun _ => false, resumeWhenFails := fun _ => false,
      outcome := SuspendOutcome.resumed fired }
    maxFd rfds wfds efds tv

/-- C8: for every poll event set built only from POLLIN, POLLOUT, POLLHUP
and POLLPRI, translating to reactor bits and back is the identity
(READABLE-POLLIN, WRITABLE-POLLOUT, DISCONNECT-POLLHUP,
PRIORITIZED-POLLPRI); and on the forward direction POLLERR or POLLNVAL in
the input forces ASYNC_READABLE, so they have no reverse image and no
round-trip requirement. -/
theorem poll2_async_roundtrip :
    ∀ i o h p : Bool,
      async_events_to_poll2 (poll2_events_to_async ⟨i, o, h, p, false, false⟩)
        = ⟨i, o, h, p, false, false⟩
      ∧ (∀ e v : Bool,
          (poll2_events_to_async ⟨i, o, h, p, e, v⟩).readable = (i || e || v))
      ∧ (∀ e v : Bool,
          (async_events_to_poll2 (poll2_events_to_async ⟨i, o, h, p, e, v⟩)).pollerr
              = false
            ∧ (async_events_to_poll2 (poll2_events_to_async ⟨i, o, h, p, e, v⟩)).pollnval
              = false) := by
  decide

/-- C4: the exception-to-errno mapper consumes the pending failure exactly
once (nothing is left pending), assigns errno exactly once, to ECANCELED
for a cancellation, ETIMEDOUT for a timeout, and EINTR otherwise, the
"other" case alone being surfaced as exactly one warning; with no pending
failure errno is assigned EINTR once. -/
theorem handle_exception_and_errno_mapping :
    ∀ pending : Option ExcKind,
      (handle_exception_and_errno pending).pending = Option.none
      ∧ (handle_exception_and_errno pending).errnoWrites.length = 1
      ∧ (handle_exception_and_errno pending).errnoWrites
          = [match pending with
             | some ExcKind.cancellation => Errno.ECANCELED
             | some ExcKind.timeout => Errno.ETIMEDOUT
             | some ExcKind.other => Errno.EINTR
             | Option.none => Errno.EINTR]
      ∧ (handle_exception_and_errno pending).warnings
          = (if pending = some ExcKind.other then 1 else 0) := by
  intro pending
  rcases pending with _ | e
  · decide
  · cases e <;> decide

/-- C1: the older drain skips the notification exactly when it should
perform it. On a queue holding one DONE message whose easy handle has a
registered event, the newer drain removes the handle from the multi, emits
the status code on the matching event, notifies and stops it, while the
older drain emits no notification and stops nothing; on a DONE message
with no matching event the newer drain skips silently while the older one
reaches the notification through a NULL event pointer. In general the
newer drain coincides with the drain step the specification describes. -/
theorem process_curl_completed_handles_drain :
    (process_curl_completed_handles_v2 [⟨true, 1, 7⟩]
        ⟨{1}, [(1, ⟨10, false⟩)], [], [], false⟩).notified = [(10, 7)]
    ∧ (process_curl_completed_handles_v2 [⟨true, 1, 7⟩]
        ⟨{1}, [(1, ⟨10, false⟩)], [], [], false⟩).stoppedIds = [10]
    ∧ (process_curl_completed_handles_v2 [⟨true, 1, 7⟩]
        ⟨{1}, [(1, ⟨10, false⟩)], [], [], false⟩).multiHandles = ∅
    ∧ (process_curl_completed_handles_v2 [⟨true, 1, 7⟩]
        ⟨{1}, [(1, ⟨10, false⟩)], [], [], false⟩).eventList = []
    ∧ (process_curl_completed_handles_v1 [⟨true, 1, 7⟩]
        ⟨{1}, [(1, ⟨10, false⟩)], [], [], false⟩).notified = []
    ∧ (process_curl_completed_handles_v1 [⟨true, 1, 7⟩]
        ⟨{1}, [(1, ⟨10, false⟩)], [], [], false⟩).stoppedIds = []
    ∧ (process_curl_completed_handles_v2 [⟨true, 2, 9⟩]
        ⟨{2}, [], [], [], false⟩).notified = []
    ∧ (process_curl_completed_handles_v2 [⟨true, 2, 9⟩]
        ⟨{2}, [], [], [], false⟩).nullNotify = false
    ∧ (process_curl_completed_handles_v1 [⟨true, 2, 9⟩]
        ⟨{2}, [], [], [], false⟩).nullNotify = true
    ∧ (∀ st msg, processDoneMsgV2 st msg = drainDoneSpec st msg) := by
  refine ⟨by decide, by decide, by decide, by decide, by decide,
    by decide, by decide, by decide, by decide, ?_⟩
  intro st msg
  by_cases hd : msg.isDone
  · simp only [processDoneMsgV2, drainDoneSpec, hd, if_true]
    cases h : curlEventLookup msg.easy st.eventList with
    | none => rfl
    | some ev =>
      simp only [curl_async_event_stop]
      by_cases hc : ev.closed
      · simp [hc]
      · simp [hc, Finset.erase_idem]
  · simp [processDoneMsgV1, processDoneMsgV2, drainDoneSpec, hd]

/-- C2: the poll, select and DNS adapters and the newer curl_async_perform
destroy the coroutine's waker on every exit path, success or failure; the
older curl_async_perform violates the claim: a run that suspends and
completes successfully returns with the waker still alive. -/
theorem adapters_destroy_waker :
    (∀ env ufds timeout, (php_poll2_async env ufds timeout).wakerAlive = false)
    ∧ (∀ env maxFd rfds wfds efds tv,
        (php_select_async env maxFd rfds wfds efds tv).wakerAlive = false)
    ∧ (∀ env nodeNull serviceNull,
        (php_network_getaddrinfo_async env nodeNull serviceNull).wakerAlive = false)
    ∧ (∀ env ipNull ipValid,
        (php_network_gethostbyaddr_async env ipNull ipValid).wakerAlive = false)
    ∧ (∀ env, (curl_async_perform_v2 env).wakerAlive = false)
    ∧ (curl_async_perform_v1
        ⟨true, false, false, false, Option.none, some 0⟩).wakerAlive = true := by
  refine ⟨?_, ?_, ?_, ?_, ?_, by decide⟩
  · intro env ufds timeout
    unfold php_poll2_async
    repeat' split
    all_goals rfl
  · intro env maxFd rfds wfds efds tv
    unfold php_select_async
    repeat' split
    all_goals rfl
  · intro env nodeNull serviceNull
    unfold php_network_getaddrinfo_async
    repeat' split
    all_goals rfl
  · intro env ipNull ipValid
    unfold php_network_gethostbyaddr_async
    repeat' split
    all_goals rfl
  · intro env
    unfold curl_async_perform_v2
    repeat' split
    all_goals rfl

/-- C3: after a suspension that ends with a pending non-timeout failure
(here a cancellation) the newer curl_async_select returns
CURLM_INTERNAL_ERROR, and a pending timeout failure is cleared and
reported as CURLM_OK with numfds set to the poll-list size; the older
revision violates the claim: it returns CURLM_OK for the cancellation
failure as well, leaving the failure pending. -/
theorem curl_async_select_failure_mapping :
    curl_async_select_v2
        ⟨true, false, true, false, false, false, some ExcKind.cancellation, 3⟩ 100
      = ⟨CURLM_INTERNAL_ERROR, some 3, some ExcKind.cancellation⟩
    ∧ curl_async_select_v2
        ⟨true, false, true, false, false, false, some ExcKind.timeout, 3⟩ 100
      = ⟨CURLM_OK, some 3, Option.none⟩
    ∧ curl_async_select_v2
        ⟨true, false, true, false, false, false, Option.none, 3⟩ 100
      = ⟨CURLM_OK, some 3, Option.none⟩
    ∧ curl_async_select_v1
        ⟨true, false, true, false, false, false, some ExcKind.cancellation, 3⟩ 100
      = ⟨CURLM_OK, some 3, some ExcKind.cancellation⟩ := by
  decide

/-- C5: php_poll2_async encodes a negative timeout argument as waker
timeout 0, the "no timeout" encoding, so the wait is infinite; but it
passes the same encoding for a timeout argument of 0, so no reactor timer
is armed there either and the call cannot return promptly, contradicting
the claim (and the function's own doc comment); a positive timeout does
arm a timer. -/
theorem php_poll2_async_timeout_encoding :
    (php_poll2_async
        ⟨true, false, fun _ => false, fun _ => false, SuspendOutcome.resumed []⟩
        [⟨3, ⟨true, false, false, false, false, false⟩, PollBits.none⟩]
        (-1)).wakerTimeoutMs = some 0
    ∧ (php_poll2_async
        ⟨true, false, fun _ => false, fun _ => false, SuspendOutcome.resumed []⟩
        [⟨3, ⟨true, false, false, false, false, false⟩, PollBits.none⟩]
        0).wakerTimeoutMs = some 0
    ∧ wakerTimerArmed 0 = false
    ∧ (php_poll2_async
        ⟨true, false, fun _ => false, fun _ => false, SuspendOutcome.resumed []⟩
        [⟨3, ⟨true, false, false, false, false, false⟩, PollBits.none⟩]
        5).wakerTimeoutMs = some 5
    ∧ wakerTimerArmed 5 = true := by
  refine ⟨rfl, rfl, rfl, rfl, rfl⟩

/-- C10: php_network_getaddresses_async with a NULL host returns 0 at
once, attempts no resolution, writes nothing through the output
sockaddr-array pointer and leaves the caller's error-string slot exactly
as it was. -/
theorem getaddresses_null_host :
    ∀ (env : GetAddrsEnv) (errStrIn : Option (Option String)),
      php_network_getaddresses_async env Option.none errStrIn
        = { ret := 0, salOut := Option.none, errStr := errStrIn, warnings := 0,
            resolverCalled := false } := by
  intro env errStrIn
  rfl

/-- The registration loop exits normally when no constructor fails. -/
theorem setupScan_ok (l : List Nat) :
    setupScan (fun _ => false) (fun _ => false) l = SetupExit.ok := by
  induction l with
  | nil => rfl
  | cons a t ih => simpa [setupScan] using ih

/-- Membership in a scratch set filled by the select callbacks: exactly
the fds some firing callback reported with a triggered bit satisfying the
picked predicate. -/
theorem mem_selectScratch (fired : List (Nat × AsyncBits)) (pick : AsyncBits → Bool)
    (fd : Nat) :
    fd ∈ selectScratch fired pick ↔ ∃ b, (fd, b) ∈ fired ∧ pick b = true := by
  unfold selectScratch
  simp only [List.mem_toFinset, List.mem_map, List.mem_filter]
  constructor
  · rintro ⟨⟨a, b⟩, ⟨hmem, hpick⟩, rfl⟩
    exact ⟨b, hmem, hpick⟩
  · rintro ⟨b, hmem, hpick⟩
    exact ⟨(fd, b), ⟨hmem, hpick⟩, rfl⟩

/-- Normal form of a select run that suspends and is resumed by its
callbacks: the accumulator is returned and each caller-supplied set is
replaced by the corresponding scratch set. -/
theorem selectResumedRes_eq (fired : List (Nat × AsyncBits)) (maxFd : Nat)
    (rfds wfds efds : Option (Finset Nat)) (tv : Option Nat)
    (hmax : maxFd ≤ INT_MAX) :
    selectResumedRes fired maxFd rfds wfds efds tv =
      { result := Int.ofNat (selectAccumulator fired),
        rfds := rfds.map (fun _ => selectScratch fired (fun b => b.readable)),
        wfds := wfds.map (fun _ => selectScratch fired (fun b => b.writable)),
        efds := efds.map (fun _ =>
          selectScratch fired (fun b => b.disconnect || b.prioritized)),
        errnoWrites := [], warnings := 0, wakerAlive := false,
        pending := Option.none } := by
  have h2 : ¬ INT_MAX < maxFd := by omega
  simp [selectResumedRes, php_select_async, h2, setupScan_ok]

/-- C6: after a select run that suspends and is resumed with a valid list
of firing callbacks (each for a registered fd: inside [0, max_fd) and with
at least one requested bit), the return value equals the accumulator of
firing callbacks with non-empty triggered events, each caller-supplied
output set contains exactly the fds reported with the corresponding bit
(READABLE into rfds, WRITABLE into wfds, DISCONNECT or PRIORITIZED into
efds), and every fd in any output set was requested in some input set and
lies inside [0, max_fd). -/
theorem select_reported_sets (fired : List (Nat × AsyncBits)) (maxFd : Nat)
    (rfds wfds efds : Option (Finset Nat)) (tv : Option Nat)
    (hmax : maxFd ≤ INT_MAX)
    (hvalid : ∀ p ∈ fired,
      p.1 < maxFd ∧ selectRequested rfds wfds efds p.1 ≠ AsyncBits.none) :
    (selectResumedRes fired maxFd rfds wfds efds tv).result
        = Int.ofNat (fired.countP (fun p => p.2 ≠ AsyncBits.none))
    ∧ (∀ s, (selectResumedRes fired maxFd rfds wfds efds tv).rfds = some s →
        ∀ fd, fd ∈ s ↔ ∃ b, (fd, b) ∈ fired ∧ b.readable = true)
    ∧ (∀ s, (selectResumedRes fired maxFd rfds wfds efds tv).wfds = some s →
        ∀ fd, fd ∈ s ↔ ∃ b, (fd, b) ∈ fired ∧ b.writable = true)
    ∧ (∀ s, (selectResumedRes fired maxFd rfds wfds efds tv).efds = some s →
        ∀ fd, fd ∈ s ↔ ∃ b, (fd, b) ∈ fired ∧ (b.disconnect || b.prioritized) = true)
    ∧ (∀ s fd,
        ((selectResumedRes fired maxFd rfds wfds efds tv).rfds = some s
          ∨ (selectResumedRes fired maxFd rfds wfds efds tv).wfds = some s
          ∨ (selectResumedRes fired maxFd rfds wfds efds tv).efds = some s) →
        fd ∈ s → fd < maxFd ∧ selectRequested rfds wfds efds fd ≠ AsyncBits.none) := by
  rw [selectResumedRes_eq fired maxFd rfds wfds efds tv hmax]
  refine ⟨rfl, ?_, ?_, ?_, ?_⟩
  · intro s hs fd
    rcases rfds with _ | r0
    · simp at hs
    · simp only [Option.map_some'] at hs
      rw [← Option.some_inj.mp hs]
      exact mem_selectScratch fired (fun b => b.readable) fd
  · intro s hs fd
    rcases wfds with _ | w0
    · simp at hs
    · simp only [Option.map_some'] at hs
      rw [← Option.some_inj.mp hs]
      exact mem_selectScratch fired (fun b => b.writable) fd
  · intro s hs fd
    rcases efds with _ | e0
    · simp at hs
    · simp only [Option.map_some'] at hs
      rw [← Option.some_inj.mp hs]
      exact mem_selectScratch fired (fun b => b.disconnect || b.prioritized) fd
  · intro s fd hor hmem
    have hrep : ∃ b, (fd, b) ∈ fired := by
      rcases hor with hs | hs | hs
      · rcases rfds with _ | r0
        · simp at hs
        · simp only [Option.map_some'] at hs
          rw [← Option.some_inj.mp hs] at hmem
          obtain ⟨b, hb, _⟩ := (mem_selectScratch fired (fun b => b.readable) fd).mp hmem
          exact ⟨b, hb⟩
      · rcases wfds with _ | w0
        · simp at hs
        · simp only [Option.map_some'] at hs
          rw [← Option.some_inj.mp hs] at hmem
          obtain ⟨b, hb, _⟩ := (mem_selectScratch fired (fun b => b.writable) fd).mp hmem
          exact ⟨b, hb⟩
      · rcases efds with _ | e0
        · simp at hs
        · simp only [Option.map_some'] at hs
          rw [← Option.some_inj.mp hs] at hmem
          obtain ⟨b, hb, _⟩ :=
            (mem_selectScratch fired (fun b => b.disconnect || b.prioritized) fd).mp hmem
          exact ⟨b, hb⟩
    obtain ⟨b, hb⟩ := hrep
    exact hvalid (fd, b) hb

/-- Witness for C6: a concrete resumed select run with fd 3 requested for
reading and reported READABLE. -/
theorem select_reported_sets_witness :
    (4 ≤ INT_MAX
      ∧ (∀ p ∈ [((3 : Nat), AsyncBits.mk true false false false)],
          p.1 < 4
          ∧ selectRequested (some {3}) Option.none Option.none p.1 ≠ AsyncBits.none))
    ∧ ((selectResumedRes [((3 : Nat), AsyncBits.mk true false false false)] 4
          (some {3}) Option.none Option.none Option.none).result
        = Int.ofNat
            (([((3 : Nat), AsyncBits.mk true false false false)]).countP
              (fun p => p.2 ≠ AsyncBits.none))
      ∧ (∀ s, (selectResumedRes [((3 : Nat), AsyncBits.mk true false false false)] 4
            (some {3}) Option.none Option.none Option.none).rfds = some s →
          ∀ fd, fd ∈ s ↔ ∃ b,
            (fd, b) ∈ [((3 : Nat), AsyncBits.mk true false false false)]
            ∧ b.readable = true)
      ∧ (∀ s, (selectResumedRes [((3 : Nat), AsyncBits.mk true false false false)] 4
            (some {3}) Option.none Option.none Option.none).wfds = some s →
          ∀ fd, fd ∈ s ↔ ∃ b,
            (fd, b) ∈ [((3 : Nat), AsyncBits.mk true false false false)]
            ∧ b.writable = true)
      ∧ (∀ s, (selectResumedRes [((3 : Nat), AsyncBits.mk true false false false)] 4
            (some {3}) Option.none Option.none Option.none).efds = some s →
          ∀ fd, fd ∈ s ↔ ∃ b,
            (fd, b) ∈ [((3 : Nat), AsyncBits.mk true false false false)]
            ∧ (b.disconnect || b.prioritized) = true)
      ∧ (∀ s fd,
          ((selectResumedRes [((3 : Nat), AsyncBits.mk true false false false)] 4
              (some {3}) Option.none Option.none Option.none).rfds = some s
            ∨ (selectResumedRes [((3 : Nat), AsyncBits.mk true false false false)] 4
                (some {3}) Option.none Option.none Option.none).wfds = some s
            ∨ (selectResumedRes [((3 : Nat), AsyncBits.mk true false false false)] 4
                (some {3}) Option.none Option.none Option.none).efds = some s) →
          fd ∈ s →
            fd < 4 ∧ selectRequested (some {3}) Option.none Option.none fd
              ≠ AsyncBits.none)) :=
  ⟨⟨by decide, by decide⟩,
    select_reported_sets [((3 : Nat), AsyncBits.mk true false false false)] 4
      (some {3}) Option.none Option.none Option.none (by decide) (by decide)⟩

/-- C9: whenever php_select_async returns -1, on any of its error paths,
the caller's three fd sets are returned exactly as they were passed in;
only the success path overwrites them with the scratch sets. -/
theorem select_error_preserves_sets (env : AdapterEnv) (maxFd : Nat)
    (rfds wfds efds : Option (Finset Nat)) (tv : Option Nat)
    (h : (php_select_async env maxFd rfds wfds efds tv).result = -1) :
    (php_select_async env maxFd rfds wfds efds tv).rfds = rfds
    ∧ (php_select_async env maxFd rfds wfds efds tv).wfds = wfds
    ∧ (php_select_async env maxFd rfds wfds efds tv).efds = efds := by
  revert h
  unfold php_select_async
  repeat' split
  all_goals intro h
  all_goals try exact ⟨rfl, rfl, rfl⟩
  exfalso
  simp only [Int.ofNat_eq_coe] at h
  omega

/-- Witness for C9: a select call outside coroutine context returns -1 and
leaves the fd sets untouched. -/
theorem select_error_preserves_sets_witness :
    (php_select_async
        ⟨false, false, fun _ => false, fun _ => false, SuspendOutcome.resumed []⟩
        4 (some {3}) Option.none Option.none Option.none).result = -1
    ∧ ((php_select_async
          ⟨false, false, fun _ => false, fun _ => false, SuspendOutcome.resumed []⟩
          4 (some {3}) Option.none Option.none Option.none).rfds = some {3}
      ∧ (php_select_async
          ⟨false, false, fun _ => false, fun _ => false, SuspendOutcome.resumed []⟩
          4 (some {3}) Option.none Option.none Option.none).wfds = Option.none
      ∧ (php_select_async
          ⟨false, false, fun _ => false, fun _ => false, SuspendOutcome.resumed []⟩
          4 (some {3}) Option.none Option.none Option.none).efds = Option.none) :=
  ⟨by decide,
    select_error_preserves_sets
      ⟨false, false, fun _ => false, fun _ => false, SuspendOutcome.resumed []⟩
      4 (some {3}) Option.none Option.none Option.none (by decide)⟩

/-- Once a buffer is installed and one cleanup callback registered,
further gethostbyname installs never register another callback. -/
theorem install_foldl_callbacks (rest : List Nat) (c : Nat) (f : List Nat) :
    (rest.foldl gethostbyname_install ⟨some c, 1, f⟩).callbacks = 1 := by
  induction rest generalizing c f with
  | nil => rfl
  | cons b r ih =>
    simp only [List.foldl_cons, gethostbyname_install]
    exact ih b (f ++ [c])

/-- Running the single cleanup callback after a chain of installs frees
the surviving buffer, so the full free list is exactly the chain of
installed buffers in order. -/
theorem install_foldl_end (rest : List Nat) (c : Nat) (f : List Nat) :
    runEndCallbacks 1 (rest.foldl gethostbyname_install ⟨some c, 1, f⟩)
      = ⟨Option.none, 1, f ++ c :: rest⟩ := by
  induction rest generalizing c f with
  | nil => simp [runEndCallbacks, hostent_free_callback]
  | cons b r ih =>
    simp only [List.foldl_cons, gethostbyname_install]
    rw [ih b (f ++ [c])]
    simp

/-- C7: across any non-empty sequence of successful gethostbyname calls on
one coroutine, exactly one coroutine-end cleanup callback is ever
registered (on the first use); each later call frees the previous buffer
when installing its own, and after the coroutine-end callbacks run every
allocated buffer has been freed, the context slot is empty, and (for
distinct allocations) each buffer appears in the free list exactly
once. -/
theorem gethostbyname_buffer_lifecycle (ids : List Nat) (h : ids ≠ []) :
    (gethostbynameCalls ids).callbacks = 1
    ∧ coroutineEnd (gethostbynameCalls ids)
        = { hostent := Option.none, callbacks := 1, freed := ids }
    ∧ (ids.Nodup → ∀ a ∈ ids,
        ((coroutineEnd (gethostbynameCalls ids)).freed).count a = 1) := by
  obtain ⟨c, rest, rfl⟩ := List.exists_cons_of_ne_nil h
  have hfold : gethostbynameCalls (c :: rest)
      = rest.foldl gethostbyname_install ⟨some c, 1, []⟩ := rfl
  have hcb : (gethostbynameCalls (c :: rest)).callbacks = 1 := by
    rw [hfold]
    exact install_foldl_callbacks rest c []
  have hend : coroutineEnd (gethostbynameCalls (c :: rest))
      = { hostent := Option.none, callbacks := 1, freed := c :: rest } := by
    unfold coroutineEnd
    rw [hcb, hfold, install_foldl_end]
    simp
  refine ⟨hcb, hend, ?_⟩
  intro hnodup a ha
  rw [hend]
  exact List.count_eq_one_of_mem hnodup ha

/-- Witness for C7: two consecutive calls allocating buffers 3 and 5. -/
theorem gethostbyname_buffer_lifecycle_witness :
    (([3, 5] : List Nat) ≠ [])
    ∧ ((gethostbynameCalls [3, 5]).callbacks = 1
      ∧ coroutineEnd (gethostbynameCalls [3, 5])
          = { hostent := Option.none, callbacks := 1, freed := [3, 5] }
      ∧ (([3, 5] : List Nat).Nodup → ∀ a ∈ ([3, 5] : List Nat),
          ((coroutineEnd (gethostbynameCalls [3, 5])).freed).count a = 1)) :=
  ⟨by decide, gethostbyname_buffer_lifecycle [3, 5] (by decide)⟩
